import Mathlib

/-!
Verification development for the apartment-transaction crawler (`src/main.py`).

The pipeline fetches real-estate transaction records from a government API
per (region, month) unit (`try_api_with_fallback`), derives a per-record key
(`create_unique_id`), reconciles each monthly batch against the accumulated
Google-Sheets store and appends the net-new rows (`upload_to_sheet`), driven
by a month loop in `main`.  All cell values are strings (they come from XML
text nodes), so a pandas frame is embedded as a column-name list plus rows of
string cells.  External effects (HTTP, the sheet, `random.randint`) are
passed in as explicit oracles/state.
-/

namespace AptCrawler

/-- A pandas `DataFrame` of string cells: column labels plus rows of cells
aligned with the labels.  (`main.py` only ever stores strings: XML text and
formatted sample values.) -/
structure DataFrame where
  cols : List String
  rows : List (List String)
deriving DecidableEq, Repr

/-- Index of the first column labelled `c` (label lookup, as pandas column
access `df[c]` does; labels are unique in every frame the script builds). -/
def idxOf? (c : String) : List String → Option Nat
  | [] => none
  | x :: xs => if x == c then some 0 else (idxOf? c xs).map (· + 1)

/-- The cell of `row` under the column labelled `c` (empty when absent — the
callers below only read columns they know to be present). -/
def cellAt (cols row : List String) (c : String) : String :=
  match idxOf? c cols with
  | some i => (row[i]?).getD ""
  | none => ""

/-- Python `c in cols` membership test on column labels. -/
def hasCol (cols : List String) (c : String) : Bool :=
  cols.any (fun x => x == c)

/-- `id_cols` of `create_unique_id` (src/main.py:257): the fields joined into
a record's dedup key — amount, year, month, day, area, lot, floor. -/
def id_cols : List String :=
  ["거래금액", "년", "월", "일", "전용면적", "지번", "층"]

/-- The key `create_unique_id` assigns to one row: the values of those
`id_cols` present in the frame, joined with `_`
(src/main.py:261, `df[valid_cols].astype(str).agg('_'.join, axis=1)`;
`astype(str)` is the identity on these string cells). -/
def uniqueKey (cols row : List String) : String :=
  String.intercalate "_" ((id_cols.filter (fun c => hasCol cols c)).map (cellAt cols row))

/-- Overwrite column `c` with the constant value `v`, creating it at the end
when absent — pandas `df[c] = scalar` (src/main.py:291-292). -/
def setColConst (df : DataFrame) (c v : String) : DataFrame :=
  match idxOf? c df.cols with
  | some i => ⟨df.cols, df.rows.map (fun r => r.set i v)⟩
  | none => ⟨df.cols ++ [c], df.rows.map (fun r => r ++ [v])⟩

/-- `df.drop(columns=[c], errors='ignore')` (src/main.py:295). -/
def dropCol (df : DataFrame) (c : String) : DataFrame :=
  match idxOf? c df.cols with
  | some i => ⟨df.cols.eraseIdx i, df.rows.map (fun r => r.eraseIdx i)⟩
  | none => df

/-- `create_unique_id` (src/main.py:252-262): on a non-empty frame that has at
least one of the `id_cols`, store each row's joined key in a `unique_id`
column; otherwise return the frame unchanged. -/
def createUniqueId (df : DataFrame) : DataFrame :=
  if df.rows.isEmpty then df
  else
    if (id_cols.filter (fun c => hasCol df.cols c)).isEmpty then df
    else
      match idxOf? "unique_id" df.cols with
      | some i => ⟨df.cols, df.rows.map (fun r => r.set i (uniqueKey df.cols r))⟩
      | none => ⟨df.cols ++ ["unique_id"], df.rows.map (fun r => r ++ [uniqueKey df.cols r])⟩

/-- Lines 277-278 of src/main.py: the existing frame, re-keyed when it does
not already carry a `unique_id` column. -/
def existingKeyed (df : DataFrame) : DataFrame :=
  if hasCol df.cols "unique_id" then df else createUniqueId df

/-- `df_existing['unique_id']` as a list — the snapshot of already-stored
keys that incoming rows are tested against (src/main.py:280). -/
def existingKeys (df : DataFrame) : List String :=
  (existingKeyed df).rows.map (fun r => cellAt (existingKeyed df).cols r "unique_id")

/-- Lines 274-284 of src/main.py: key the batch, and against a non-empty
store snapshot keep exactly the rows whose key is not among the snapshot's
keys (`~df_new['unique_id'].isin(df_existing['unique_id'])`); against an
empty snapshot keep everything.  Returns (re-keyed existing frame, newly
added frame); `none` models the uncaught `KeyError` raised when a required
`unique_id` column is missing. -/
def reconcile (dfNew dfExisting : DataFrame) : Option (DataFrame × DataFrame) :=
  let dfNewK := createUniqueId dfNew
  if dfExisting.rows.isEmpty then some (dfExisting, dfNewK)
  else
    let dfEx := existingKeyed dfExisting
    if hasCol dfEx.cols "unique_id" && hasCol dfNewK.cols "unique_id" then
      some (dfEx, ⟨dfNewK.cols,
        dfNewK.rows.filter (fun r =>
          !((existingKeys dfExisting).contains (cellAt dfNewK.cols r "unique_id")))⟩)
    else none

/-- Python `set(a) != set(b)` negated: the two label lists carry the same
label set (src/main.py:308). -/
def sameSet (a b : List String) : Bool :=
  a.all (fun x => hasCol b x) && b.all (fun x => hasCol a x)

/-- One projected cell list: `row` (laid out by `src`) re-read under the
target labels, absent labels giving the empty cell (`pd.concat` fills `NaN`,
which the sheet writer serialises as the empty string). -/
def projRow (src tgt : List String) (row : List String) : List String :=
  tgt.map (fun c => cellAt src row c)

/-- `pd.concat([a, b], ignore_index=True)` on string frames: union of the
labels (first frame's order, then the second's new ones), each row re-read
under the combined labels. -/
def concatFrames (a b : DataFrame) : DataFrame :=
  let cols := a.cols ++ b.cols.filter (fun c => !(hasCol a.cols c))
  ⟨cols, a.rows.map (projRow a.cols cols) ++ b.rows.map (projRow b.cols cols)⟩

/-- Lines 315-317 of src/main.py: give the frame an empty-string column for
every label of `cs` it lacks. -/
def addMissing (df : DataFrame) (cs : List String) : DataFrame :=
  cs.foldl (fun d c => if hasCol d.cols c then d else setColConst d c "") df

/-- The sheet-update step of `upload_to_sheet` (src/main.py:298-325), with
the worksheet embedded as its list of rows (row 0 = header).  Empty-ish sheet
(fewer than 2 rows): write header + rows.  Same header label set: append the
frame's rows `df_to_upload.values.tolist()` — in the frame's own column
order.  Different label set: clear the sheet and rewrite it with the combined
table. -/
def writeToSheet (dfUp : DataFrame) (sheet : List (List String)) : List (List String) :=
  if sheet.length < 2 then dfUp.cols :: dfUp.rows
  else
    let hdr := sheet.headD []
    if sameSet dfUp.cols hdr then sheet ++ dfUp.rows
    else
      let comb := concatFrames (addMissing ⟨hdr, sheet.tail⟩ dfUp.cols) dfUp
      comb.cols :: comb.rows

/-- `upload_to_sheet` (src/main.py:264-334).  Returns
(count written, updated in-memory existing frame, updated sheet);
`none` models the uncaught `KeyError` of `reconcile`.  `writeFails = true`
models the worksheet calls raising (caught at line 331, returning
`-1, df_existing` with nothing written).  `now` is the
`datetime.now()` stamp of line 292. -/
def uploadToSheet (dfNew dfExisting : DataFrame) (sheet : List (List String))
    (isReal : Bool) (now : String) (writeFails : Bool) :
    Option (Int × DataFrame × List (List String)) :=
  if dfNew.rows.isEmpty then some (0, dfExisting, sheet)
  else
    match reconcile dfNew dfExisting with
    | none => none
    | some (dfEx, newRows) =>
      if newRows.rows.isEmpty then some (0, dfEx, sheet)
      else
        let dataType := if isReal then "실제 데이터" else "샘플 데이터"
        let na2 := setColConst (setColConst newRows "데이터_타입" dataType) "수집_시간" now
        let dfUp := dropCol na2 "unique_id"
        if writeFails then some (-1, dfEx, sheet)
        else some ((na2.rows.length : Int), concatFrames dfEx na2, writeToSheet dfUp sheet)

/-- The month loop of `main` (src/main.py:408-451), from the point where each
month's collected batch has been assembled into a frame: skip empty batches,
upload the rest, add positive counts to the running total, and always move on
to the next month.  Each month carries its batch frame, its
`monthly_real_data` flag, whether its sheet write raises, and its collection
timestamp. -/
def processMonths : List (DataFrame × Bool × Bool × String) → Int → DataFrame →
    List (List String) → Option (Int × DataFrame × List (List String))
  | [], total, dfEx, sheet => some (total, dfEx, sheet)
  | (dfm, isReal, wFail, now) :: rest, total, dfEx, sheet =>
      if dfm.rows.isEmpty then processMonths rest total dfEx sheet
      else
        match uploadToSheet dfm dfEx sheet isReal now wFail with
        | none => none
        | some (added, dfEx2, sheet2) =>
            processMonths rest (if added > 0 then total + added else total) dfEx2 sheet2

/-! ## The fetch side: `try_api_with_fallback` and `generate_sample_data` -/

/-- One parsed wire record: an `item` element's children, in document order
(`item_dict[child.tag] = text`, src/main.py:158-162). -/
abbrev Rec : Type := List (String × String)

/-- What one HTTP attempt of `try_api_with_fallback` observes
(src/main.py:122-183): a raised transport exception; a non-200 status; a 200
body that fails XML parsing; a parsed body without a `resultCode` element; or
a `resultCode` plus the `items` content.  `itemsElem = none` models both a
missing `items` element and a childless one (both falsy at line 152);
`some l` models an `items` element whose `item` children are `l`. -/
inductive ApiOutcome where
  | transport : ApiOutcome
  | badStatus : Nat → ApiOutcome
  | parseError : ApiOutcome
  | noResultCode : ApiOutcome
  | result : String → Option (List Rec) → ApiOutcome
deriving DecidableEq

/-- Whether one attempt returns from `try_api_with_fallback`, and with what
(src/main.py:141-183): `resultCode`-`00` with an items element returns the
items (empty `findall` result returns `[], True`, line 167-169); code `99`
returns `[], True`; every other observation falls through to the next
attempt. -/
def attemptResult : ApiOutcome → Option (List Rec × Bool)
  | .result code itemsElem =>
      if code == "00" then
        match itemsElem with
        | some items => some (items, true)
        | none => none
      else if code == "99" then some ([], true)
      else none
  | _ => none

/-- `API_URLS` (src/main.py:26-30). -/
def API_URLS : List String :=
  ["http://openapi.molit.go.kr/OpenAPI_ToolInstallPackage/service/rest/RTMSOBJSvc/getRTMSDataSvcAptTrade",
   "https://openapi.molit.go.kr/OpenAPI_ToolInstallPackage/service/rest/RTMSOBJSvc/getRTMSDataSvcAptTrade",
   "http://apis.data.go.kr/1613000/RTMSDataSvcAptTrade/getRTMSDataSvcAptTrade"]

/-- The (url index, attempt index) pairs tried in order: each of the three
`API_URLS` twice (`for url_idx ... for attempt in range(2)`,
src/main.py:118-121). -/
def attemptList : List (Nat × Nat) :=
  (List.range API_URLS.length).flatMap (fun u => (List.range 2).map (fun a => (u, a)))

/-- Run the attempts in order against the server oracle, stopping at the
first attempt that returns.  The oracle receives (url index, attempt index,
`pageNo`, `numOfRows`); the code always sends `pageNo=1`, `numOfRows=100`
(src/main.py:109-115). -/
def runAttempts (server : Nat → Nat → Nat → Nat → ApiOutcome) :
    List (Nat × Nat) → Option (List Rec × Bool)
  | [] => none
  | (u, a) :: rest =>
      match attemptResult (server u a 1 100) with
      | some r => some r
      | none => runAttempts server rest

/-- `f"{n:02d}"` for the day-of-month sample value. -/
def pad2 (n : Nat) : String :=
  if n < 10 then "0" ++ toString n else toString n

/-- `generate_sample_data` (src/main.py:69-103).  `rand k lo hi` is the k-th
`random.randint(lo, hi)` drawn (0-based across the whole call): one draw for
the record count in `range(random.randint(0, 5))`, then eleven per record, in
source order. -/
def generateSampleData (lawd ymd : String) (rand : Nat → Nat → Nat → Nat) : List Rec :=
  let n := rand 0 0 5
  (List.range n).map (fun i =>
    let b := 1 + i * 11
    [("거래금액", toString (rand b 30000 150000)),
     ("건축년도", toString (rand (b+1) 1990 2020)),
     ("년", ymd.take 4),
     ("월", (ymd.drop 4).take 2),
     ("일", pad2 (rand (b+2) 1 28)),
     ("전용면적", toString (rand (b+3) 60 150) ++ "." ++ toString (rand (b+4) 10 99)),
     ("지번", toString (rand (b+5) 1 999)),
     ("층", toString (rand (b+6) 1 20)),
     ("법정동", "테스트동" ++ toString (rand (b+7) 1 5) ++ "가"),
     ("아파트", "테스트아파트" ++ toString (rand (b+8) 1 10)),
     ("법정동시군구코드", lawd),
     ("법정동읍면동코드", toString (rand (b+9) 10100 10999)),
     ("도로명", "테스트로" ++ toString (rand (b+10) 1 100)),
     ("해제사유발생일", ""),
     ("거래유형", "직거래"),
     ("중개사소재지", ""),
     ("해제여부", "O")])

/-- `try_api_with_fallback` (src/main.py:105-191): try the six attempts in
order; if one returns, that is the result (`is_real = True`); when every
attempt falls through, generate sample data and return it with
`is_real = False` (lines 188-191). -/
def tryApiWithFallback (server : Nat → Nat → Nat → Nat → ApiOutcome)
    (rand : Nat → Nat → Nat → Nat) (lawd ymd : String) : List Rec × Bool :=
  match runAttempts server attemptList with
  | some r => r
  | none => (generateSampleData lawd ymd rand, false)

/-! ## Region-code loading: `get_lawd_codes` -/

/-- Pandas `.str.strip()` (src/main.py:220): drop whitespace from both ends
of the entry. -/
def stripStr (s : String) : String :=
  ⟨((s.data.dropWhile Char.isWhitespace).reverse.dropWhile Char.isWhitespace).reverse⟩

/-- The validity test of src/main.py:225-226: non-empty, not the `nan` that
`astype(str)` prints for missing cells, exactly five characters, all digits,
and not ending in the aggregate suffix `000`. -/
def isValidLawd (c : String) : Bool :=
  !(c == "") && !(c == "nan") && (c.length == 5) && c.all Char.isDigit
    && !(c.endsWith "000")

/-- `major_city_prefixes` (src/main.py:236). -/
def majorCityPrefixes : List String :=
  ["11", "26", "27", "28", "29", "30", "31", "36"]

/-- `get_lawd_codes` (src/main.py:206-250) from the point where the `code`
column has been read: strip each entry, keep the valid ones, then apply the
mode filter (`TARGET_REGIONS` allow-list when that list is truthy, the
major-city prefix filter in `QUICK` mode, otherwise all valid codes); an
empty final list is returned as `[]` (line 242-244). -/
def getLawdCodes (runMode : String) (targetRegions : Option (List String))
    (rawCodes : List String) : List String :=
  let codes := rawCodes.map stripStr
  let validCodes := codes.filter isValidLawd
  let filtered :=
    match targetRegions with
    | some tr =>
        if !tr.isEmpty then validCodes.filter (fun c => tr.contains c)
        else if runMode == "QUICK" then
          validCodes.filter (fun c => majorCityPrefixes.any (fun p => c.startsWith p))
        else validCodes
    | none =>
        if runMode == "QUICK" then
          validCodes.filter (fun c => majorCityPrefixes.any (fun p => c.startsWith p))
        else validCodes
  if filtered.isEmpty then [] else filtered

/-! ## Helper lemmas -/

lemma idxOf?_eq_none {l : List String} {c : String} (h : hasCol l c = false) :
    idxOf? c l = none := by
  induction l with
  | nil => rfl
  | cons x xs ih =>
      simp only [hasCol, List.any_cons, Bool.or_eq_false_iff] at h
      simpa [idxOf?, h.1] using ih h.2

lemma idxOf?_append_cons (l t : List String) (c : String) (h : hasCol l c = false) :
    idxOf? c (l ++ c :: t) = some l.length := by
  induction l with
  | nil => simp [idxOf?]
  | cons x xs ih =>
      simp only [hasCol, List.any_cons, Bool.or_eq_false_iff] at h
      simp [idxOf?, h.1, ih h.2]

lemma eraseIdx_append_cons (l t : List String) (a : String) :
    (l ++ a :: t).eraseIdx l.length = l ++ t := by
  induction l with
  | nil => rfl
  | cons x xs ih => simp [List.eraseIdx, ih]

lemma get?_concat (r : List String) (v : String) :
    (r ++ [v])[r.length]? = some v := by
  induction r with
  | nil => rfl
  | cons x xs ih => simp [ih]

lemma cellAt_append_key (cols r : List String) (c v : String)
    (h : hasCol cols c = false) (hlen : r.length = cols.length) :
    cellAt (cols ++ [c]) (r ++ [v]) c = v := by
  have h1 : idxOf? c (cols ++ [c]) = some cols.length := idxOf?_append_cons cols [] c h
  have h2 : (r ++ [v])[cols.length]? = some v := by
    rw [← hlen]; exact get?_concat r v
  simp [cellAt, h1, h2]

lemma hasCol_append (l t : List String) (c : String) :
    hasCol (l ++ t) c = (hasCol l c || hasCol t c) := by
  simp [hasCol]

lemma createUniqueId_eq (df : DataFrame)
    (hne : df.rows.isEmpty = false)
    (hvc : (id_cols.filter (fun c => hasCol df.cols c)).isEmpty = false)
    (huid : hasCol df.cols "unique_id" = false) :
    createUniqueId df =
      ⟨df.cols ++ ["unique_id"], df.rows.map (fun r => r ++ [uniqueKey df.cols r])⟩ := by
  simp [createUniqueId, hne, hvc, idxOf?_eq_none huid]

lemma createUniqueId_rows_length (df : DataFrame) :
    (createUniqueId df).rows.length = df.rows.length := by
  unfold createUniqueId
  by_cases h1 : df.rows.isEmpty
  · simp [h1]
  · simp only [h1, Bool.false_eq_true, if_false]
    by_cases h2 : (id_cols.filter (fun c => hasCol df.cols c)).isEmpty
    · simp [h2]
    · simp only [h2, Bool.false_eq_true, if_false]
      cases h3 : idxOf? "unique_id" df.cols <;> simp

lemma existingKeyed_rows_length (df : DataFrame) :
    (existingKeyed df).rows.length = df.rows.length := by
  unfold existingKeyed
  by_cases h : hasCol df.cols "unique_id"
  · simp [h]
  · simp [h, createUniqueId_rows_length]

/-! ## C3: the identity key -/

/-- Input for the C3 counterexample: a frame layout carrying all key fields
and both region sub-code fields. -/
def c3cols : List String :=
  ["거래금액", "년", "월", "일", "전용면적", "지번", "층", "법정동시군구코드", "법정동읍면동코드"]

/-- C3 counterexample row: region codes `11110` / `10100`. -/
def c3row1 : List String :=
  ["50000", "2025", "01", "05", "84.9", "100", "7", "11110", "10100"]

/-- C3 counterexample row: same key fields, region codes `11140` / `10200`. -/
def c3row2 : List String :=
  ["50000", "2025", "01", "05", "84.9", "100", "7", "11140", "10200"]

/-- C3 counterexample: two records that differ only in the two region
sub-code fields receive the *same* derived key — `create_unique_id` joins
only amount, year, month, day, area, lot and floor, and the claim's "two
records that differ only in a region sub-code field yield different keys" is
false. -/
theorem c3_region_code_collision :
    uniqueKey c3cols c3row1 = uniqueKey c3cols c3row2 ∧ c3row1 ≠ c3row2 := by
  decide

/-- C3 (amended): the derived identity key is the string-normalized values of
exactly the seven fields amount, year, month, day, area, lot and floor,
joined in that fixed order with the fixed delimiter `_`; the region sub-code
fields are not part of the key, so any two records agreeing on those seven
fields — whatever their other fields hold — yield equal keys. -/
theorem c3_key_amended (cols r₁ r₂ : List String)
    (hall : ∀ c ∈ id_cols, hasCol cols c = true)
    (hagree : ∀ c ∈ id_cols, cellAt cols r₁ c = cellAt cols r₂ c) :
    uniqueKey cols r₁ = String.intercalate "_" (id_cols.map (cellAt cols r₁))
      ∧ uniqueKey cols r₁ = uniqueKey cols r₂ := by
  have hf : id_cols.filter (fun c => hasCol cols c) = id_cols :=
    List.filter_eq_self.mpr hall
  refine ⟨by rw [uniqueKey, hf], ?_⟩
  rw [uniqueKey, uniqueKey, hf]
  exact congrArg _ (List.map_congr_left hagree)

/-- Witness layout for `c3_key_amended`: key fields plus two non-key fields. -/
def c3wcols : List String :=
  ["거래금액", "년", "월", "일", "전용면적", "지번", "층", "아파트", "법정동시군구코드"]

/-- Witness row 1: apartment name `A`, region `11110`. -/
def c3wrow1 : List String :=
  ["50000", "2025", "01", "05", "84.9", "100", "7", "A", "11110"]

/-- Witness row 2: same key fields, apartment name `B`, region `11140`. -/
def c3wrow2 : List String :=
  ["50000", "2025", "01", "05", "84.9", "100", "7", "B", "11140"]

/-- Witness for `c3_key_amended` at a concrete layout and rows. -/
theorem c3_key_amended_witness :
    ((∀ c ∈ id_cols, hasCol c3wcols c = true)
      ∧ (∀ c ∈ id_cols, cellAt c3wcols c3wrow1 c = cellAt c3wcols c3wrow2 c))
    ∧ (uniqueKey c3wcols c3wrow1
          = String.intercalate "_" (id_cols.map (cellAt c3wcols c3wrow1))
        ∧ uniqueKey c3wcols c3wrow1 = uniqueKey c3wcols c3wrow2) :=
  ⟨⟨by decide, by decide⟩, c3_key_amended c3wcols c3wrow1 c3wrow2 (by decide) (by decide)⟩

/-! ## C9: region-code validation -/

/-- C9: with no allow-list and outside `QUICK` mode, the loader keeps exactly
the entries that are five-character digit strings not ending in `000`
(whitespace-free input, as `.str.strip()` has no effect on it), in input
order; and the validity test is exactly that condition — the extra `''` and
`'nan'` guards of the source are subsumed by the length test. -/
theorem c9_region_filter (runMode : String) (rawCodes : List String)
    (hq : runMode ≠ "QUICK") (ht : ∀ c ∈ rawCodes, stripStr c = c) :
    getLawdCodes runMode none rawCodes = rawCodes.filter isValidLawd
      ∧ ∀ c : String, isValidLawd c =
          ((c.length == 5) && c.all Char.isDigit && !(c.endsWith "000")) := by
  constructor
  · unfold getLawdCodes
    have hmap : rawCodes.map stripStr = rawCodes :=
      (List.map_congr_left ht).trans (List.map_id _)
    have hq2 : (runMode == "QUICK") = false := beq_eq_false_iff_ne.mpr hq
    rw [hmap]
    simp only [hq2, Bool.false_eq_true, if_false]
    by_cases he : (rawCodes.filter isValidLawd).isEmpty
    · simp only [he, if_true]
      exact (List.isEmpty_iff.mp he).symm
    · simp [he]
  · intro c
    by_cases h5 : c.length = 5
    · have h0 : (c == "") = false := by
        refine beq_eq_false_iff_ne.mpr ?_
        intro e; subst e; simp at h5
      have hn : (c == "nan") = false := by
        refine beq_eq_false_iff_ne.mpr ?_
        intro e; subst e; exact absurd h5 (by decide)
      simp [isValidLawd, h0, hn]
    · have h5b : (c.length == 5) = false := beq_eq_false_iff_ne.mpr h5
      simp [isValidLawd, h5b]

/-- Witness input for `c9_region_filter`: one valid code among aggregate,
short, alphabetic and suffixed entries. -/
def c9codes : List String := ["11110", "11000", "1111", "abcde", "1111a", "369000"]

/-- Witness for `c9_region_filter` at a concrete code list. -/
theorem c9_region_filter_witness :
    ("FULL" ≠ "QUICK" ∧ ∀ c ∈ c9codes, stripStr c = c)
    ∧ (getLawdCodes "FULL" none c9codes = c9codes.filter isValidLawd
        ∧ ∀ c : String, isValidLawd c =
            ((c.length == 5) && c.all Char.isDigit && !(c.endsWith "000"))) :=
  ⟨⟨by decide, by decide⟩, c9_region_filter "FULL" c9codes (by decide) (by decide)⟩

/-! ## C1, C4, C7: fetch behaviour -/

/-- The failure classes of the C1 claim — transport error (a raised request
exception or a non-200 status), parse error, or a non-success `resultCode`
(neither `00` nor `99`). -/
def isFailureOutcome : ApiOutcome → Bool
  | .transport => true
  | .badStatus _ => true
  | .parseError => true
  | .noResultCode => false
  | .result code _ => !(code == "00" || code == "99")

lemma attemptResult_none_of_failure (o : ApiOutcome) (h : isFailureOutcome o = true) :
    attemptResult o = none := by
  cases o with
  | transport => rfl
  | badStatus s => rfl
  | parseError => rfl
  | noResultCode => simp [isFailureOutcome] at h
  | result code itemsElem =>
      simp only [isFailureOutcome, Bool.not_eq_true', Bool.or_eq_false_iff] at h
      simp [attemptResult, h.1, h.2]

lemma runAttempts_eq_none (server : Nat → Nat → Nat → Nat → ApiOutcome)
    (l : List (Nat × Nat))
    (h : ∀ p ∈ l, attemptResult (server p.1 p.2 1 100) = none) :
    runAttempts server l = none := by
  induction l with
  | nil => rfl
  | cons p rest ih =>
      obtain ⟨u, a⟩ := p
      have h0 := h (u, a) (List.mem_cons_self _ _)
      simp only [runAttempts, h0]
      exact ih (fun q hq => h q (List.mem_cons_of_mem _ hq))

/-- C1 counterexample server: every attempt raises a transport error. -/
def c1server : Nat → Nat → Nat → Nat → ApiOutcome := fun _ _ _ _ => .transport

/-- C1 counterexample random stream: every `randint(lo, hi)` returns
`lo + 1`, so the sample-record count `randint(0, 5)` is `1`. -/
def c1rand : Nat → Nat → Nat → Nat := fun _ lo _ => lo + 1

/-- C1 counterexample: when every attempt against every endpoint fails with a
transport error, `try_api_with_fallback` does *not* report zero records — it
returns one fabricated sample record (flagged `is_real = False`), which
`main` passes on to reconciliation and the store writer like any other
batch.  The claim's "reports zero records … never fabricates records" is
false. -/
theorem c1_fabricates_records :
    (tryApiWithFallback c1server c1rand "11110" "202501").1.length = 1
      ∧ (tryApiWithFallback c1server c1rand "11110" "202501").2 = false := by
  decide

/-- C1 (amended): when every fetch attempt against every endpoint fails
(transport error, parse error, or non-success result code), the fetch does
not report zero records for the unit — it falls back to
`generate_sample_data`, returning the randomly fabricated sample records
(between 0 and 5 of them) flagged as non-real data, and these are what gets
passed on to reconciliation and the store writer. -/
theorem c1_total_failure_falls_back_to_samples
    (server : Nat → Nat → Nat → Nat → ApiOutcome) (rand : Nat → Nat → Nat → Nat)
    (lawd ymd : String)
    (h : ∀ p ∈ attemptList, isFailureOutcome (server p.1 p.2 1 100) = true) :
    tryApiWithFallback server rand lawd ymd = (generateSampleData lawd ymd rand, false) := by
  have hnone : runAttempts server attemptList = none :=
    runAttempts_eq_none server attemptList
      (fun p hp => attemptResult_none_of_failure _ (h p hp))
  simp [tryApiWithFallback, hnone]

/-- Witness for `c1_total_failure_falls_back_to_samples` at the all-transport-
failure server. -/
theorem c1_total_failure_witness :
    (∀ p ∈ attemptList, isFailureOutcome (c1server p.1 p.2 1 100) = true)
    ∧ tryApiWithFallback c1server c1rand "11110" "202501"
        = (generateSampleData "11110" "202501" c1rand, false) :=
  ⟨by decide, c1_total_failure_falls_back_to_samples c1server c1rand "11110" "202501" (by decide)⟩

/-- C4 counterexample server: a unit holding 150 records, served correctly
page by page — the response to (page, rows) carries records
`(page-1)*rows … (page-1)*rows + rows - 1`. -/
def c4server : Nat → Nat → Nat → Nat → ApiOutcome := fun _ _ page rows =>
  .result "00" (some (((List.replicate 150 ([] : Rec)).drop ((page - 1) * rows)).take rows))

/-- C4 counterexample: against a unit with 150 records the fetch returns only
the 100 records of page 1 — `try_api_with_fallback` sends a single request
with `pageNo=1`, `numOfRows=100` and never asks for page 2, so the claim's
"a unit containing more records than one page's size returns all of its
records" is false. -/
theorem c4_returns_only_first_page :
    (tryApiWithFallback c4server c1rand "11110" "202501").1.length = 100
      ∧ c4server 0 0 2 100 = .result "00" (some (List.replicate 50 ([] : Rec))) := by
  constructor
  · decide
  · decide

/-- C4 (amended): the fetch does not paginate — every request it issues has
page index 1 and page size 100, so its result depends only on the server's
responses at `pageNo = 1`, `numOfRows = 100`, and a unit with more than 100
records yields only the 100 records of the first page. -/
theorem c4_page1_only
    (s1 s2 : Nat → Nat → Nat → Nat → ApiOutcome) (rand : Nat → Nat → Nat → Nat)
    (lawd ymd : String)
    (h : ∀ u a, s1 u a 1 100 = s2 u a 1 100) :
    tryApiWithFallback s1 rand lawd ymd = tryApiWithFallback s2 rand lawd ymd := by
  have hrun : ∀ l : List (Nat × Nat), runAttempts s1 l = runAttempts s2 l := by
    intro l
    induction l with
    | nil => rfl
    | cons p rest ih =>
        obtain ⟨u, a⟩ := p
        simp only [runAttempts, h u a]
        cases attemptResult (s2 u a 1 100) <;> simp [ih]
  simp [tryApiWithFallback, hrun attemptList]

/-- Witness server for `c4_page1_only`: transport failure on page 1, data on
every later page. -/
def c4sA : Nat → Nat → Nat → Nat → ApiOutcome := fun _ _ page _ =>
  if page ≤ 1 then .transport else .result "00" (some [[("지번", "1")]])

/-- Witness server for `c4_page1_only`: transport failure on every page. -/
def c4sB : Nat → Nat → Nat → Nat → ApiOutcome := fun _ _ _ _ => .transport

/-- Witness for `c4_page1_only`: the two servers differ on every page except
page 1, yet the fetch cannot tell them apart. -/
theorem c4_page1_only_witness :
    (∀ u a : Nat, c4sA u a 1 100 = c4sB u a 1 100)
    ∧ tryApiWithFallback c4sA c1rand "11110" "202501"
        = tryApiWithFallback c4sB c1rand "11110" "202501" :=
  ⟨fun _ _ => rfl, c4_page1_only c4sA c4sB c1rand "11110" "202501" (fun _ _ => rfl)⟩

/-- C7 counterexample server: the first attempt's payload is malformed XML,
the second attempt (same endpoint) succeeds with one record. -/
def c7server : Nat → Nat → Nat → Nat → ApiOutcome := fun u a _ _ =>
  if u == 0 && a == 0 then .parseError else .result "00" (some [[("지번", "1")]])

/-- C7 counterexample: after the XML parse failure on the first attempt the
unit is *not* abandoned — a further request is issued (the retry of the same
endpoint), and its record is returned.  Had the unit been abandoned at the
parse failure, no real record could have been returned. -/
theorem c7_parse_failure_is_retried :
    tryApiWithFallback c7server c1rand "11110" "202501" = ([[("지번", "1")]], true)
      ∧ ([[("지번", "1")]] : List Rec) ≠ [] := by
  decide

/-- C7 (amended): a malformed-payload (XML parse) failure is handled like any
other failed attempt — the remaining attempts of the same endpoint and the
other endpoints are still tried; in particular a parse failure on the first
attempt followed by a successful second attempt yields that second attempt's
records. -/
theorem c7_parse_failure_continues
    (server : Nat → Nat → Nat → Nat → ApiOutcome) (rand : Nat → Nat → Nat → Nat)
    (lawd ymd : String) (items : List Rec)
    (h0 : server 0 0 1 100 = .parseError)
    (h1 : server 0 1 1 100 = .result "00" (some items)) :
    tryApiWithFallback server rand lawd ymd = (items, true) := by
  have hl : attemptList = [(0, 0), (0, 1), (1, 0), (1, 1), (2, 0), (2, 1)] := by decide
  simp [tryApiWithFallback, hl, runAttempts, h0, h1, attemptResult]

/-- Witness for `c7_parse_failure_continues` at the parse-then-success
server. -/
theorem c7_parse_failure_continues_witness :
    (c7server 0 0 1 100 = .parseError
      ∧ c7server 0 1 1 100 = .result "00" (some [[("지번", "1")]]))
    ∧ tryApiWithFallback c7server c1rand "11110" "202501" = ([[("지번", "1")]], true) :=
  ⟨⟨by decide, by decide⟩,
    c7_parse_failure_continues c7server c1rand "11110" "202501" _ (by decide) (by decide)⟩

/-! ## Reconciliation lemmas -/

lemma setColConst_absent (df : DataFrame) (c v : String) (h : hasCol df.cols c = false) :
    setColConst df c v = ⟨df.cols ++ [c], df.rows.map (fun r => r ++ [v])⟩ := by
  simp [setColConst, idxOf?_eq_none h]

lemma dropCol_append_cons (rows : List (List String)) (l t : List String) (c : String)
    (h : hasCol l c = false) :
    dropCol ⟨l ++ c :: t, rows⟩ c = ⟨l ++ t, rows.map (fun r => r.eraseIdx l.length)⟩ := by
  simp [dropCol, idxOf?_append_cons l t c h, eraseIdx_append_cons]

lemma existingKeyed_self (df : DataFrame) (h : hasCol df.cols "unique_id" = true) :
    existingKeyed df = df := by
  simp [existingKeyed, h]

lemma existingKeys_of_keyed (df : DataFrame) (h : hasCol df.cols "unique_id" = true) :
    existingKeys df = df.rows.map (fun r => cellAt df.cols r "unique_id") := by
  unfold existingKeys
  rw [existingKeyed_self df h]

/-- Under the conditions every real batch of the pipeline satisfies — fresh
upstream columns (no `unique_id`), at least one key column, well-formed rows,
a non-empty keyed snapshot — `reconcile` keeps, in batch order and with
multiplicity, exactly the rows whose key is absent from the snapshot. -/
lemma reconcile_eq (dfNew dfEx0 : DataFrame)
    (hwf : ∀ r ∈ dfNew.rows, r.length = dfNew.cols.length)
    (huid : hasCol dfNew.cols "unique_id" = false)
    (hvc : (id_cols.filter (fun c => hasCol dfNew.cols c)).isEmpty = false)
    (hne : dfNew.rows.isEmpty = false)
    (hex0 : dfEx0.rows.isEmpty = false)
    (hex : hasCol (existingKeyed dfEx0).cols "unique_id" = true) :
    reconcile dfNew dfEx0 = some (existingKeyed dfEx0,
      ⟨dfNew.cols ++ ["unique_id"],
       (dfNew.rows.filter
          (fun r => !((existingKeys dfEx0).contains (uniqueKey dfNew.cols r)))).map
         (fun r => r ++ [uniqueKey dfNew.cols r])⟩) := by
  have hC := createUniqueId_eq dfNew hne hvc huid
  have huid2 : hasCol (dfNew.cols ++ ["unique_id"]) "unique_id" = true := by
    simp [hasCol]
  have hrowEq :
      (dfNew.rows.map (fun r => r ++ [uniqueKey dfNew.cols r])).filter
          (fun r => !((existingKeys dfEx0).contains
            (cellAt (dfNew.cols ++ ["unique_id"]) r "unique_id")))
        = (dfNew.rows.filter
            (fun r => !((existingKeys dfEx0).contains (uniqueKey dfNew.cols r)))).map
            (fun r => r ++ [uniqueKey dfNew.cols r]) := by
    rw [List.filter_map]
    congr 1
    apply List.filter_congr
    intro r hr
    simp [Function.comp,
      cellAt_append_key dfNew.cols r "unique_id" (uniqueKey dfNew.cols r) huid (hwf r hr)]
  simp only [reconcile, hC, hex0, Bool.false_eq_true, if_false, hex, huid2,
    Bool.and_self, if_true, hrowEq]

/-! ## C2: the store writer -/

/-- C2 counterexample batch: the incoming frame's columns are in a different
order than the store's header. -/
def c2dfNew : DataFrame := ⟨["아파트", "거래금액"], [["apt1", "100"]]⟩

/-- C2 counterexample snapshot matching the store contents. -/
def c2dfEx : DataFrame :=
  ⟨["거래금액", "아파트", "데이터_타입", "수집_시간"], [["200", "apt0", "실제 데이터", "t0"]]⟩

/-- C2 counterexample store: header row plus one data row. -/
def c2sheet : List (List String) :=
  [["거래금액", "아파트", "데이터_타입", "수집_시간"], ["200", "apt0", "실제 데이터", "t0"]]

/-- C2 counterexample: appending to a non-empty store whose header carries
the same labels in a different order, `upload_to_sheet` appends the row in
the *incoming frame's* column order (`df_to_upload.values.tolist()`), not
projected onto the store's header order — the appended row `["apt1", "100", …]`
puts the apartment name under the store's `거래금액` (amount) column.  The
claim's "projects the records onto the store's existing header/column order"
is false. -/
theorem c2_no_projection :
    (uploadToSheet c2dfNew c2dfEx c2sheet true "t1" false).map (fun t => t.2.2)
        = some (c2sheet ++ [["apt1", "100", "실제 데이터", "t1"]])
      ∧ projRow ["아파트", "거래금액", "데이터_타입", "수집_시간"] (c2sheet.headD [])
          ["apt1", "100", "실제 데이터", "t1"] = ["100", "apt1", "실제 데이터", "t1"]
      ∧ (["apt1", "100", "실제 데이터", "t1"] : List String)
          ≠ ["100", "apt1", "실제 데이터", "t1"] := by
  decide

/-- C2 (amended): when the incoming frame's label *set* equals the store's
header label set, the writer appends the rows after the last existing row in
the incoming frame's own column order (no projection onto the header order),
leaving the header row and all previously present rows unchanged; when the
label sets differ, the store is instead cleared and rewritten in full with
the combined table. -/
theorem c2_append_in_incoming_order (dfUp : DataFrame) (sheet : List (List String))
    (hlen : 2 ≤ sheet.length)
    (hset : sameSet dfUp.cols (sheet.headD []) = true) :
    writeToSheet dfUp sheet = sheet ++ dfUp.rows
      ∧ (writeToSheet dfUp sheet).take sheet.length = sheet := by
  have h2 : ¬(sheet.length < 2) := by omega
  have hset2 : sameSet dfUp.cols (sheet.head?.getD []) = true := by
    rw [← List.headD_eq_head?_getD]; exact hset
  have heq : writeToSheet dfUp sheet = sheet ++ dfUp.rows := by
    simp [writeToSheet, h2, hset2]
  exact ⟨heq, by rw [heq, List.take_left]⟩

/-- Witness frame for `c2_append_in_incoming_order`. -/
def c2wdf : DataFrame := ⟨["a", "b"], [["1", "2"]]⟩

/-- Witness store for `c2_append_in_incoming_order`: same labels as the
frame, opposite order. -/
def c2wsheet : List (List String) := [["b", "a"], ["9", "8"]]

/-- Witness for `c2_append_in_incoming_order` at a concrete frame/store. -/
theorem c2_append_in_incoming_order_witness :
    (2 ≤ c2wsheet.length ∧ sameSet c2wdf.cols (c2wsheet.headD []) = true)
    ∧ (writeToSheet c2wdf c2wsheet = c2wsheet ++ c2wdf.rows
        ∧ (writeToSheet c2wdf c2wsheet).take c2wsheet.length = c2wsheet) :=
  ⟨⟨by decide, by decide⟩, c2_append_in_incoming_order c2wdf c2wsheet (by decide) (by decide)⟩

/-! ## C5: within-batch duplicates -/

/-- C5 counterexample batch: two records with identical key fields. -/
def c5dfNew : DataFrame := ⟨["거래금액"], [["100"], ["100"]]⟩

/-- C5 counterexample snapshot: one record with a different key. -/
def c5dfEx : DataFrame := ⟨["거래금액"], [["200"]]⟩

/-- C5 counterexample: a batch with two entries of identical derived key
(`100`), absent from the snapshot, yields *both* entries in the new-records
output — `upload_to_sheet` filters only against the existing snapshot's keys
(`~isin`), never within the batch, so the claim's "only the first occurrence
… is classified as new" and "the new-records output never contains two
entries with the same key" are false. -/
theorem c5_duplicates_both_kept :
    (reconcile c5dfNew c5dfEx).map (fun p => p.2.rows)
      = some [["100", "100"], ["100", "100"]] := by
  decide

/-- C5 (amended): every batch entry whose derived key is absent from the
snapshot is classified as new, including repeated occurrences of the same
key — the new-records count equals the number of batch rows with absent
keys counted with multiplicity, so the output can contain several entries
with one key. -/
theorem c5_no_within_batch_dedup (dfNew dfEx0 : DataFrame)
    (hwf : ∀ r ∈ dfNew.rows, r.length = dfNew.cols.length)
    (huid : hasCol dfNew.cols "unique_id" = false)
    (hvc : (id_cols.filter (fun c => hasCol dfNew.cols c)).isEmpty = false)
    (hne : dfNew.rows.isEmpty = false)
    (hex0 : dfEx0.rows.isEmpty = false)
    (hex : hasCol (existingKeyed dfEx0).cols "unique_id" = true) :
    (reconcile dfNew dfEx0).map (fun p => p.2.rows.length)
      = some ((dfNew.rows.filter
          (fun r => !((existingKeys dfEx0).contains (uniqueKey dfNew.cols r)))).length) := by
  rw [reconcile_eq dfNew dfEx0 hwf huid hvc hne hex0 hex]
  simp

/-- Witness for `c5_no_within_batch_dedup` at the duplicate-carrying batch:
the count is 2, both occurrences admitted. -/
theorem c5_no_within_batch_dedup_witness :
    ((∀ r ∈ c5dfNew.rows, r.length = c5dfNew.cols.length)
      ∧ hasCol c5dfNew.cols "unique_id" = false
      ∧ (id_cols.filter (fun c => hasCol c5dfNew.cols c)).isEmpty = false
      ∧ c5dfNew.rows.isEmpty = false
      ∧ c5dfEx.rows.isEmpty = false
      ∧ hasCol (existingKeyed c5dfEx).cols "unique_id" = true)
    ∧ (reconcile c5dfNew c5dfEx).map (fun p => p.2.rows.length)
        = some ((c5dfNew.rows.filter
            (fun r => !((existingKeys c5dfEx).contains (uniqueKey c5dfNew.cols r)))).length) :=
  ⟨⟨by decide, by decide, by decide, by decide, by decide, by decide⟩,
    c5_no_within_batch_dedup c5dfNew c5dfEx (by decide) (by decide) (by decide)
      (by decide) (by decide) (by decide)⟩

/-! ## C6: idempotence of the reconcile-and-append step -/

/-- C6: when every record of the incoming batch has a derived key already
present in the snapshot, `upload_to_sheet` returns a count of zero and the
store is left exactly as it was — nothing is appended, rewritten or
cleared.  (Covers the empty-batch case as well.) -/
theorem c6_second_run_writes_nothing (dfNew dfEx0 : DataFrame) (sheet : List (List String))
    (isReal : Bool) (now : String) (writeFails : Bool)
    (hwf : ∀ r ∈ dfNew.rows, r.length = dfNew.cols.length)
    (huid : hasCol dfNew.cols "unique_id" = false)
    (hvc : (id_cols.filter (fun c => hasCol dfNew.cols c)).isEmpty = false)
    (hex0 : dfEx0.rows.isEmpty = false)
    (hex : hasCol (existingKeyed dfEx0).cols "unique_id" = true)
    (hdup : ∀ r ∈ dfNew.rows, (existingKeys dfEx0).contains (uniqueKey dfNew.cols r) = true) :
    (uploadToSheet dfNew dfEx0 sheet isReal now writeFails).map (fun t => (t.1, t.2.2))
      = some ((0 : Int), sheet) := by
  cases hne : dfNew.rows.isEmpty with
  | true => simp [uploadToSheet, hne]
  | false =>
      have hfilter : dfNew.rows.filter
          (fun r => !((existingKeys dfEx0).contains (uniqueKey dfNew.cols r))) = [] := by
        refine List.filter_eq_nil_iff.mpr ?_
        intro r hr
        simpa using hdup r hr
      have hrec2 : reconcile dfNew dfEx0
          = some (existingKeyed dfEx0, ⟨dfNew.cols ++ ["unique_id"], []⟩) := by
        rw [reconcile_eq dfNew dfEx0 hwf huid hvc hne hex0 hex, hfilter]
        rfl
      simp [uploadToSheet, hne, hrec2]

/-- Witness batch for `c6_second_run_writes_nothing`: one record whose key is
already in the snapshot. -/
def c6dfNew : DataFrame := ⟨["거래금액"], [["200"]]⟩

/-- Witness snapshot for `c6_second_run_writes_nothing`. -/
def c6dfEx : DataFrame := ⟨["거래금액"], [["200"]]⟩

/-- Witness store for `c6_second_run_writes_nothing`. -/
def c6sheet : List (List String) := [["거래금액"], ["200"]]

/-- Witness for `c6_second_run_writes_nothing` at a concrete second-run
batch. -/
theorem c6_second_run_writes_nothing_witness :
    ((∀ r ∈ c6dfNew.rows, r.length = c6dfNew.cols.length)
      ∧ hasCol c6dfNew.cols "unique_id" = false
      ∧ (id_cols.filter (fun c => hasCol c6dfNew.cols c)).isEmpty = false
      ∧ c6dfEx.rows.isEmpty = false
      ∧ hasCol (existingKeyed c6dfEx).cols "unique_id" = true
      ∧ ∀ r ∈ c6dfNew.rows, (existingKeys c6dfEx).contains (uniqueKey c6dfNew.cols r) = true)
    ∧ (uploadToSheet c6dfNew c6dfEx c6sheet true "t" false).map (fun t => (t.1, t.2.2))
        = some ((0 : Int), c6sheet) :=
  ⟨⟨by decide, by decide, by decide, by decide, by decide, by decide⟩,
    c6_second_run_writes_nothing c6dfNew c6dfEx c6sheet true "t" false (by decide)
      (by decide) (by decide) (by decide) (by decide) (by decide)⟩

/-! ## C8: write failures are confined to their month -/

lemma reconcile_keys (dfNew dfEx0 dfEx na : DataFrame)
    (hrec : reconcile dfNew dfEx0 = some (dfEx, na)) :
    existingKeys dfEx = existingKeys dfEx0 ∧ dfEx.rows.length = dfEx0.rows.length := by
  unfold reconcile at hrec
  cases he : dfEx0.rows.isEmpty with
  | true =>
      simp only [he, if_true] at hrec
      simp only [Option.some.injEq, Prod.mk.injEq] at hrec
      rw [← hrec.1]
      exact ⟨rfl, rfl⟩
  | false =>
      simp only [he, Bool.false_eq_true, if_false] at hrec
      by_cases hg : (hasCol (existingKeyed dfEx0).cols "unique_id"
          && hasCol (createUniqueId dfNew).cols "unique_id") = true
      · simp only [hg, if_true, Option.some.injEq, Prod.mk.injEq] at hrec
        have h1 : existingKeyed dfEx0 = dfEx := hrec.1
        have hgl : hasCol (existingKeyed dfEx0).cols "unique_id" = true :=
          (Bool.and_eq_true_iff.mp hg).1
        constructor
        · rw [← h1, existingKeys_of_keyed _ hgl]
          rfl
        · rw [← h1]
          exact existingKeyed_rows_length dfEx0
      · simp only [hg, if_false] at hrec
        exact absurd hrec (by simp)

/-- C8: when the sheet write for a month raises, the failure is confined to
that month — `upload_to_sheet` catches it and returns `-1` with the store
untouched, the snapshot it hands back carries exactly the keys it was given
(no identity of the failed batch is added, and its row count is unchanged),
and the month loop proceeds with the next month from that same state. -/
theorem c8_write_failure_confined (dfm dfEx0 : DataFrame) (sheet : List (List String))
    (isReal : Bool) (now : String) (rest : List (DataFrame × Bool × Bool × String))
    (total : Int) (dfEx na : DataFrame)
    (hne : dfm.rows.isEmpty = false)
    (hrec : reconcile dfm dfEx0 = some (dfEx, na))
    (hna : na.rows.isEmpty = false) :
    uploadToSheet dfm dfEx0 sheet isReal now true = some (-1, dfEx, sheet)
      ∧ existingKeys dfEx = existingKeys dfEx0
      ∧ dfEx.rows.length = dfEx0.rows.length
      ∧ processMonths ((dfm, isReal, true, now) :: rest) total dfEx0 sheet
          = processMonths rest total dfEx sheet := by
  have hup : uploadToSheet dfm dfEx0 sheet isReal now true = some (-1, dfEx, sheet) := by
    simp [uploadToSheet, hne, hrec, hna]
  obtain ⟨hk, hl⟩ := reconcile_keys dfm dfEx0 dfEx na hrec
  refine ⟨hup, hk, hl, ?_⟩
  simp [processMonths, hne, hup]

/-- Witness month batch for `c8_write_failure_confined`. -/
def c8dfm : DataFrame := ⟨["거래금액"], [["100"]]⟩

/-- Witness snapshot for `c8_write_failure_confined`. -/
def c8dfEx0 : DataFrame := ⟨["거래금액"], [["200"]]⟩

/-- The snapshot `reconcile` re-keys from `c8dfEx0`. -/
def c8dfEx : DataFrame := ⟨["거래금액", "unique_id"], [["200", "200"]]⟩

/-- The newly-added frame `reconcile` extracts from `c8dfm`. -/
def c8na : DataFrame := ⟨["거래금액", "unique_id"], [["100", "100"]]⟩

/-- Witness store for `c8_write_failure_confined`. -/
def c8sheet : List (List String) := [["거래금액"], ["200"]]

/-- Witness for `c8_write_failure_confined` at a concrete failing month. -/
theorem c8_write_failure_confined_witness :
    (c8dfm.rows.isEmpty = false
      ∧ reconcile c8dfm c8dfEx0 = some (c8dfEx, c8na)
      ∧ c8na.rows.isEmpty = false)
    ∧ (uploadToSheet c8dfm c8dfEx0 c8sheet true "t" true = some (-1, c8dfEx, c8sheet)
        ∧ existingKeys c8dfEx = existingKeys c8dfEx0
        ∧ c8dfEx.rows.length = c8dfEx0.rows.length
        ∧ processMonths [(c8dfm, true, true, "t")] 0 c8dfEx0 c8sheet
            = processMonths [] 0 c8dfEx c8sheet) :=
  ⟨⟨by decide, by decide, by decide⟩,
    c8_write_failure_confined c8dfm c8dfEx0 c8sheet true "t" [] 0 c8dfEx c8na
      (by decide) (by decide) (by decide)⟩

/-! ## C10: the two metadata columns -/

lemma reconcile_na_cols (dfNew dfEx0 dfEx na : DataFrame)
    (hrec : reconcile dfNew dfEx0 = some (dfEx, na)) :
    na.cols = (createUniqueId dfNew).cols := by
  unfold reconcile at hrec
  cases he : dfEx0.rows.isEmpty with
  | true =>
      simp only [he, if_true, Option.some.injEq, Prod.mk.injEq] at hrec
      rw [← hrec.2]
  | false =>
      simp only [he, Bool.false_eq_true, if_false] at hrec
      by_cases hg : (hasCol (existingKeyed dfEx0).cols "unique_id"
          && hasCol (createUniqueId dfNew).cols "unique_id") = true
      · simp only [hg, if_true, Option.some.injEq, Prod.mk.injEq] at hrec
        rw [← hrec.2]
      · simp only [hg, if_false] at hrec
        exact absurd hrec (by simp)

/-- C10: every record actually written carries the two added columns
`데이터_타입` (data-type marker) and `수집_시간` (collection timestamp) —
appended after the upstream columns — while the internal `unique_id` column
is removed before writing; and neither added field is among the key fields
`id_cols`, so they never enter duplicate classification.  Writing to an
empty store, the store's header becomes exactly the upstream columns plus
the two added ones. -/
theorem c10_meta_columns (dfNew dfEx0 dfEx na : DataFrame) (isReal : Bool) (now : String)
    (hne : dfNew.rows.isEmpty = false)
    (huid : hasCol dfNew.cols "unique_id" = false)
    (hvc : (id_cols.filter (fun c => hasCol dfNew.cols c)).isEmpty = false)
    (hm1 : hasCol dfNew.cols "데이터_타입" = false)
    (hm2 : hasCol dfNew.cols "수집_시간" = false)
    (hrec : reconcile dfNew dfEx0 = some (dfEx, na))
    (hna : na.rows.isEmpty = false) :
    (uploadToSheet dfNew dfEx0 [] isReal now false).map (fun t => t.2.2.headD [])
        = some (dfNew.cols ++ ["데이터_타입", "수집_시간"])
      ∧ id_cols.contains "데이터_타입" = false
      ∧ id_cols.contains "수집_시간" = false := by
  have hcols1 : na.cols = dfNew.cols ++ ["unique_id"] := by
    rw [reconcile_na_cols dfNew dfEx0 dfEx na hrec, createUniqueId_eq dfNew hne hvc huid]
  have hm1b : hasCol na.cols "데이터_타입" = false := by
    rw [hcols1, hasCol_append, hm1]
    simp [hasCol]
  have hs1 := setColConst_absent na "데이터_타입" (if isReal then "실제 데이터" else "샘플 데이터") hm1b
  have hm2b : hasCol (na.cols ++ ["데이터_타입"]) "수집_시간" = false := by
    rw [hasCol_append, hcols1, hasCol_append, hm2]
    simp [hasCol]
  have hs2 :
      setColConst (setColConst na "데이터_타입" (if isReal then "실제 데이터" else "샘플 데이터"))
          "수집_시간" now
        = ⟨(na.cols ++ ["데이터_타입"]) ++ ["수집_시간"],
           (na.rows.map (fun r => r ++ [if isReal then "실제 데이터" else "샘플 데이터"])).map
             (fun r => r ++ [now])⟩ := by
    rw [hs1]
    exact setColConst_absent _ "수집_시간" now hm2b
  have hcols2 : (na.cols ++ ["데이터_타입"]) ++ ["수집_시간"]
      = dfNew.cols ++ "unique_id" :: ["데이터_타입", "수집_시간"] := by
    rw [hcols1]
    simp
  have hdrop :
      dropCol (⟨(na.cols ++ ["데이터_타입"]) ++ ["수집_시간"],
           (na.rows.map (fun r => r ++ [if isReal then "실제 데이터" else "샘플 데이터"])).map
             (fun r => r ++ [now])⟩ : DataFrame) "unique_id"
        = ⟨dfNew.cols ++ ["데이터_타입", "수집_시간"],
           ((na.rows.map (fun r => r ++ [if isReal then "실제 데이터" else "샘플 데이터"])).map
             (fun r => r ++ [now])).map (fun r => r.eraseIdx dfNew.cols.length)⟩ := by
    rw [show (⟨(na.cols ++ ["데이터_타입"]) ++ ["수집_시간"],
           (na.rows.map (fun r => r ++ [if isReal then "실제 데이터" else "샘플 데이터"])).map
             (fun r => r ++ [now])⟩ : DataFrame)
        = ⟨dfNew.cols ++ "unique_id" :: ["데이터_타입", "수집_시간"],
           (na.rows.map (fun r => r ++ [if isReal then "실제 데이터" else "샘플 데이터"])).map
             (fun r => r ++ [now])⟩ from by rw [hcols2]]
    exact dropCol_append_cons _ dfNew.cols ["데이터_타입", "수집_시간"] "unique_id" huid
  refine ⟨?_, by decide, by decide⟩
  simp only [uploadToSheet, hne, Bool.false_eq_true, if_false, hrec, hna]
  rw [hs2, hdrop]
  simp [writeToSheet]

/-- Witness batch for `c10_meta_columns`. -/
def c10dfNew : DataFrame := ⟨["거래금액", "아파트"], [["100", "apt"]]⟩

/-- Witness snapshot for `c10_meta_columns`. -/
def c10dfEx0 : DataFrame := ⟨["거래금액"], [["200"]]⟩

/-- The snapshot `reconcile` re-keys from `c10dfEx0`. -/
def c10dfEx : DataFrame := ⟨["거래금액", "unique_id"], [["200", "200"]]⟩

/-- The newly-added frame `reconcile` extracts from `c10dfNew`. -/
def c10na : DataFrame := ⟨["거래금액", "아파트", "unique_id"], [["100", "apt", "100"]]⟩

/-- Witness for `c10_meta_columns` at a concrete batch written to an empty
store. -/
theorem c10_meta_columns_witness :
    (c10dfNew.rows.isEmpty = false
      ∧ hasCol c10dfNew.cols "unique_id" = false
      ∧ (id_cols.filter (fun c => hasCol c10dfNew.cols c)).isEmpty = false
      ∧ hasCol c10dfNew.cols "데이터_타입" = false
      ∧ hasCol c10dfNew.cols "수집_시간" = false
      ∧ reconcile c10dfNew c10dfEx0 = some (c10dfEx, c10na)
      ∧ c10na.rows.isEmpty = false)
    ∧ ((uploadToSheet c10dfNew c10dfEx0 [] true "t" false).map (fun t => t.2.2.headD [])
          = some (c10dfNew.cols ++ ["데이터_타입", "수집_시간"])
        ∧ id_cols.contains "데이터_타입" = false
        ∧ id_cols.contains "수집_시간" = false) :=
  ⟨⟨by decide, by decide, by decide, by decide, by decide, by decide, by decide⟩,
    c10_meta_columns c10dfNew c10dfEx0 c10dfEx c10na true "t" (by decide) (by decide)
      (by decide) (by decide) (by decide) (by decide) (by decide)⟩

end AptCrawler
